import Mathlib

/-!
Verification development for the date-detection engine of chatbot_ner
(`ner_v2/detectors/temporal/date/en/date_detection.py`).

The Python code is shallowly embedded: text is `List Char`, the regular
expressions used by the detectors are transcribed into a small regex AST
together with an executable matcher that follows Python `re` semantics
(leftmost match, backtracking priority with greedy repetition, word
boundaries, capture groups, `findall` returning the capture-group tuples
of each non-overlapping match), dates are explicit records, and Python
exceptions (`ValueError` of `datetime.date`, `TypeError` of an `int`/
`None` comparison under Python 3) are modelled with `Except`.
-/

set_option maxRecDepth 20000

/-- Text is modelled as a list of characters (Python `str`). -/
abbrev Text := List Char

/-- Python `\w` (ASCII relevant fragment): letters, digits, underscore. -/
def isWordChar (c : Char) : Bool :=
  c.isAlpha || c.isDigit || c == '_'

/-- Python `\s`: whitespace characters. -/
def pyIsSpace (c : Char) : Bool :=
  c == ' ' || c == '\t' || c == '\n' || c == '\r' || c == '\x0b' || c == '\x0c'

/-- Python `\d` (ASCII digits). -/
def pyIsDigit (c : Char) : Bool :=
  '0' ≤ c && c ≤ '9'

/-- `[A-Za-z]`. -/
def isAsciiAlpha (c : Char) : Bool :=
  ('a' ≤ c && c ≤ 'z') || ('A' ≤ c && c ≤ 'Z')

/-- Python `str.lower()` (ASCII relevant fragment). -/
def lowerText (t : Text) : Text :=
  t.map Char.toLower

/-- Python `str.strip()`: drop whitespace from both ends. -/
def stripText (t : Text) : Text :=
  ((t.dropWhile pyIsSpace).reverse.dropWhile pyIsSpace).reverse

/-- Python `int()` on a string of ASCII digits. -/
def digitsToNat (t : Text) : Nat :=
  t.foldl (fun a c => a * 10 + (c.toNat - 48)) 0

/-- Worker for `replaceAll`; `fuel` bounds the recursion depth (the text
length always suffices because the pattern is non-empty). -/
def replaceAllAux (s : Text) : Nat → Text → Text
  | 0, t => t
  | f + 1, t =>
    match t with
    | [] => []
    | c :: ts =>
      if s.isPrefixOf (c :: ts) then
        replaceAllAux s f (List.drop s.length (c :: ts))
      else
        c :: replaceAllAux s f ts

/-- Python `s.replace(sub, '')`: remove the occurrences of `sub` found
scanning left to right, continuing after each removed occurrence. -/
def replaceAll (t s : Text) : Text :=
  if s.isEmpty then t else replaceAllAux s t.length t

/-- Does `s` occur as a contiguous substring of `t`? -/
def containsSub : Text → Text → Bool
  | t, s =>
    if s.isPrefixOf t then true
    else
      match t with
      | [] => false
      | _ :: ts => containsSub ts s

/-!
## Regex AST and matcher (Python `re` semantics)
-/

/-- Regular expression AST covering the constructs used by the source
patterns: character predicates, concatenation, prioritized alternation,
greedy star / optional, numbered capture groups, `\b` and `$`. -/
inductive Re where
  | eps : Re
  | pred : (Char → Bool) → Re
  | seq : Re → Re → Re
  | alt : Re → Re → Re
  | star : Re → Re
  | opt : Re → Re
  | group : Nat → Re → Re
  | wordB : Re
  | eos : Re

/-- Capture environment: group index to captured text, latest set first. -/
abbrev Caps := List (Nat × Text)

def setCap (caps : Caps) (i : Nat) (v : Text) : Caps :=
  (i, v) :: caps

def getCap (caps : Caps) (i : Nat) : Option Text :=
  (caps.find? (fun p => p.1 == i)).map (fun p => p.2)

/-- One matcher outcome: consumed text, character preceding the new
position, remaining text, capture environment. -/
abbrev MRes := Text × Option Char × Text × Caps

def optIsWord : Option Char → Bool
  | none => false
  | some c => isWordChar c

def headIsWord : Text → Bool
  | [] => false
  | c :: _ => isWordChar c

/-- Greedy repetition loop: `body` results that consume at least one
character are continued (more iterations preferred), then the empty
repetition.  Mirrors Python's greedy `*` on bodies that cannot match
the empty string (true of every starred subpattern in the source). -/
def starRun (body : Option Char → Text → Caps → List MRes) :
    Nat → Option Char → Text → Caps → List MRes
  | 0, prev, rest, caps => [([], prev, rest, caps)]
  | f + 1, prev, rest, caps =>
    (((body prev rest caps).filter (fun r => !r.1.isEmpty)).flatMap
      (fun r =>
        (starRun body f r.2.1 r.2.2.1 r.2.2.2).map
          (fun r2 => (r.1 ++ r2.1, r2.2.1, r2.2.2.1, r2.2.2.2)))) ++
    [([], prev, rest, caps)]

/-- All ways `re` can match a prefix of `rest`, in Python backtracking
priority order (first result = the match Python's engine would pick). -/
def mrun : Re → Option Char → Text → Caps → List MRes
  | .eps, prev, rest, caps => [([], prev, rest, caps)]
  | .pred p, _, rest, caps =>
    match rest with
    | [] => []
    | c :: rs => if p c then [([c], some c, rs, caps)] else []
  | .seq a b, prev, rest, caps =>
    (mrun a prev rest caps).flatMap
      (fun r =>
        (mrun b r.2.1 r.2.2.1 r.2.2.2).map
          (fun r2 => (r.1 ++ r2.1, r2.2.1, r2.2.2.1, r2.2.2.2)))
  | .alt a b, prev, rest, caps =>
    mrun a prev rest caps ++ mrun b prev rest caps
  | .star a, prev, rest, caps =>
    starRun (mrun a) (rest.length + 1) prev rest caps
  | .opt a, prev, rest, caps =>
    mrun a prev rest caps ++ [([], prev, rest, caps)]
  | .group i a, prev, rest, caps =>
    (mrun a prev rest caps).map
      (fun r => (r.1, r.2.1, r.2.2.1, setCap r.2.2.2 i r.1))
  | .wordB, prev, rest, caps =>
    if optIsWord prev == headIsWord rest then [] else [([], prev, rest, caps)]
  | .eos, prev, rest, caps =>
    match rest with
    | [] => [([], prev, rest, caps)]
    | _ => []

/-- First (leftmost) match of `re` in `rest`, scanning start positions
left to right; returns the priority match at the first matching start. -/
def searchFrom (re : Re) : Option Char → Text → Option MRes
  | prev, rest =>
    match mrun re prev rest [] with
    | r :: _ => some r
    | [] =>
      match rest with
      | [] => none
      | c :: rs => searchFrom re (some c) rs

/-- Python `re.search(...) is not None`. -/
def reSearch (re : Re) (t : Text) : Bool :=
  (searchFrom re none t).isSome

/-- Worker for `findall`: collects the capture-group tuples of each
non-overlapping match left to right, advancing one character after an
empty match, as Python does. -/
def findallFrom (re : Re) (n : Nat) : Nat → Option Char → Text → List (List Text)
  | 0, _, _ => []
  | f + 1, prev, rest =>
    match searchFrom re prev rest with
    | none => []
    | some (ca, pv, rs, cs) =>
      let gs := (List.range n).map (fun i => (getCap cs (i + 1)).getD [])
      if ca.isEmpty then
        match rs with
        | [] => [gs]
        | c :: rs' => gs :: findallFrom re n f (some c) rs'
      else gs :: findallFrom re n f pv rs

/-- Python `re.findall`: list of capture-group tuples (groups `1..n`,
unmatched groups as the empty string) of the non-overlapping matches. -/
def findall (re : Re) (n : Nat) (t : Text) : List (List Text) :=
  findallFrom re n (t.length + 1) none t

/-! Combinators used to transcribe the source patterns. -/

def rcat : List Re → Re
  | [] => .eps
  | [r] => r
  | r :: rs => .seq r (rcat rs)

def ralt : List Re → Re
  | [] => .pred (fun _ => false)
  | [r] => r
  | r :: rs => .alt r (ralt rs)

def rchr (c : Char) : Re :=
  .pred (fun x => x == c)

def rstr (s : String) : Re :=
  rcat (s.toList.map rchr)

/-- Character class from an explicit set of characters. -/
def rcls (s : String) : Re :=
  .pred (fun x => s.toList.contains x)

def rplus (r : Re) : Re :=
  .seq r (.star r)

def rdigit : Re := .pred pyIsDigit

def rspace : Re := .pred pyIsSpace

def ralpha : Re := .pred isAsciiAlpha

example : findall (rcat [.wordB, .group 1 (rplus ralpha), .wordB]) 1
    (" ab cd ".toList) = [["ab".toList], ["cd".toList]] := by decide

example : replaceAll ("aabb".toList) ("ab".toList) = "ab".toList := by decide

example : containsSub (" abc ".toList) ("bc".toList) = true := by decide

/-!
## Calendar model (`datetime`)
-/

/-- A timezone-localized `datetime.datetime`: calendar date plus the time
of day collapsed to "seconds since midnight" (all the source needs is the
ordering of datetimes and day arithmetic). -/
structure DateTime where
  year : Int
  month : Nat
  day : Nat
  tod : Nat
deriving DecidableEq

/-- `datetime` ordering (lexicographic). -/
def dtLt (a b : DateTime) : Bool :=
  a.year < b.year ||
    (a.year == b.year &&
      (a.month < b.month ||
        (a.month == b.month &&
          (a.day < b.day || (a.day == b.day && a.tod < b.tod)))))

/-- `datetime.date` ordering (lexicographic on year, month, day). -/
def dateLt (y1 : Int) (m1 d1 : Nat) (y2 : Int) (m2 d2 : Nat) : Bool :=
  y1 < y2 || (y1 == y2 && (m1 < m2 || (m1 == m2 && d1 < d2)))

def isLeapYear (y : Int) : Bool :=
  y % 4 == 0 && (y % 100 != 0 || y % 400 == 0)

def daysInMonth (y : Int) (m : Nat) : Nat :=
  if m == 2 then (if isLeapYear y then 29 else 28)
  else if m == 4 || m == 6 || m == 9 || m == 11 then 30
  else 31

/-- Modelled Python exceptions raised by the source. -/
inductive PyError where
  | valueError : PyError
  | typeError : PyError
deriving DecidableEq

/-- `datetime.date(year=y, month=m, day=d)`: raises `ValueError` when the
month/day combination is not a real calendar date. -/
def mkDate (y : Int) (m d : Nat) : Except PyError Unit :=
  if 1 ≤ m ∧ m ≤ 12 ∧ 1 ≤ d ∧ d ≤ daysInMonth y m then .ok ()
  else .error .valueError

/-- `timezone.localize(datetime.datetime(year=y, month=m, day=d))`: same
validation as `mkDate`, midnight time of day. -/
def mkDateTime (y : Int) (m d : Nat) : Except PyError DateTime :=
  if 1 ≤ m ∧ m ≤ 12 ∧ 1 ≤ d ∧ d ≤ daysInMonth y m then .ok ⟨y, m, d, 0⟩
  else .error .valueError

/-- Days since 1970-01-01 of a proleptic Gregorian date (Hinnant's
`days_from_civil`, which is written for truncating integer division,
matching Lean's `Int.div`). -/
def daysFromCivil (y0 : Int) (m d : Nat) : Int :=
  let y : Int := if m ≤ 2 then y0 - 1 else y0
  let era : Int := (if 0 ≤ y then y else y - 399).tdiv 400
  let yoe : Int := y - era * 400
  let mp : Int := (Int.ofNat m + 9) % 12
  let doy : Int := (153 * mp + 2).tdiv 5 + Int.ofNat d - 1
  let doe : Int := yoe * 365 + yoe.tdiv 4 - yoe.tdiv 100 + doy
  era * 146097 + doe - 719468

/-- Inverse of `daysFromCivil` (Hinnant's `civil_from_days`). -/
def civilFromDays (z0 : Int) : Int × Nat × Nat :=
  let z : Int := z0 + 719468
  let era : Int := (if 0 ≤ z then z else z - 146096).tdiv 146097
  let doe : Int := z - era * 146097
  let yoe : Int := (doe - doe.tdiv 1460 + doe.tdiv 36524 - doe.tdiv 146096).tdiv 365
  let y : Int := yoe + era * 400
  let doy : Int := doe - (365 * yoe + yoe.tdiv 4 - yoe.tdiv 100)
  let mp : Int := (5 * doy + 2).tdiv 153
  let d : Int := doy - (153 * mp + 2).tdiv 5 + 1
  let m : Int := if mp < 10 then mp + 3 else mp - 9
  (if m ≤ 2 then y + 1 else y, m.toNat, d.toNat)

/-- `dt + datetime.timedelta(days=n)`. -/
def addDays (dt : DateTime) (n : Int) : DateTime :=
  let c := civilFromDays (daysFromCivil dt.year dt.month dt.day + n)
  ⟨c.1, c.2.1, c.2.2, dt.tod⟩

/-- Weekday number of a date, `0 = Sunday .. 6 = Saturday`
(1970-01-01 was a Thursday). -/
def weekdayNumber (y : Int) (m d : Nat) : Nat :=
  ((daysFromCivil y m d + 4) % 7).toNat

example : addDays ⟨2024, 3, 15, 0⟩ 1 = ⟨2024, 3, 16, 0⟩ := by decide
example : addDays ⟨2024, 2, 28, 0⟩ 1 = ⟨2024, 2, 29, 0⟩ := by decide
example : addDays ⟨2023, 12, 31, 0⟩ 1 = ⟨2024, 1, 1, 0⟩ := by decide
example : addDays ⟨2024, 3, 2, 0⟩ (-3) = ⟨2024, 2, 28, 0⟩ := by decide
example : weekdayNumber 2024 3 15 = 5 := by decide
example : weekdayNumber 2017 2 7 = 2 := by decide

/-!
## Lexical lookup tables

`ner_v2.detectors.temporal.constant` is not part of the sources under
review, so the two dictionaries it provides are modelled from the spec.
-/

/-- Modelled from the spec: `temporal_constants.MONTH_DICT` (not under
`src/`) — "one canonical value → set-of-variant-strings" mapping month
names and abbreviations to the canonical index 1–12. -/
def MONTH_DICT : List (Nat × List Text) :=
  [(1, ["january".toList, "jan".toList]),
   (2, ["february".toList, "feb".toList]),
   (3, ["march".toList, "mar".toList]),
   (4, ["april".toList, "apr".toList]),
   (5, ["may".toList]),
   (6, ["june".toList, "jun".toList]),
   (7, ["july".toList, "jul".toList]),
   (8, ["august".toList, "aug".toList]),
   (9, ["september".toList, "sep".toList, "sept".toList]),
   (10, ["october".toList, "oct".toList]),
   (11, ["november".toList, "nov".toList]),
   (12, ["december".toList, "dec".toList])]

/-- Modelled from the spec: `temporal_constants.DAY_DICT` (not under
`src/`) — weekday names and abbreviations to the canonical index 1–7
with the week starting on Sunday (per the source docstring "Week starts
with Sunday and ends with Saturday"). -/
def DAY_DICT : List (Nat × List Text) :=
  [(1, ["sunday".toList, "sun".toList]),
   (2, ["monday".toList, "mon".toList]),
   (3, ["tuesday".toList, "tue".toList, "tues".toList]),
   (4, ["wednesday".toList, "wed".toList]),
   (5, ["thursday".toList, "thu".toList, "thur".toList, "thurs".toList]),
   (6, ["friday".toList, "fri".toList]),
   (7, ["saturday".toList, "sat".toList])]

/-- `DateDetector.__get_month_index`. -/
def getMonthIndex (value : Text) : Option Nat :=
  let v := lowerText value
  (MONTH_DICT.find? (fun p => p.2.contains v)).map (fun p => p.1)

/-- `DateDetector.__get_day_index`. -/
def getDayIndex (value : Text) : Option Nat :=
  let v := lowerText value
  (DAY_DICT.find? (fun p => p.2.contains v)).map (fun p => p.1)

/-- `self.now_date.strftime("%A")`, already lower-cased (the lookup
lower-cases its argument anyway). -/
def strftimeA (dt : DateTime) : Text :=
  (["sunday".toList, "monday".toList, "tuesday".toList, "wednesday".toList,
    "thursday".toList, "friday".toList, "saturday".toList]).getD
    (weekdayNumber dt.year dt.month dt.day) []

example : getMonthIndex ("feb".toList) = some 2 := by decide
example : getMonthIndex ("foo".toList) = none := by decide
example : getDayIndex (strftimeA ⟨2024, 3, 15, 0⟩) = some 6 := by decide

/-!
## Output records and detector context
-/

/-- The `type` tags attached to detected dates
(`temporal_constants.TYPE_*`). -/
inductive DateType where
  | exact | today | tomorrow | yesterday | dayAfter | dayBefore
  | nDaysAfter | nextDay | thisDay | possibleDay
deriving DecidableEq

/-- Field provenance tag used in the `dinfo` sub-dictionary. -/
inductive Provenance where
  | detected | inferred
deriving DecidableEq

structure DInfo where
  dd : Provenance
  mm : Provenance
  yy : Provenance
deriving DecidableEq

def allDetected : DInfo := ⟨.detected, .detected, .detected⟩

/-- One detected date dictionary (`{"dd": …, "mm": …, "yy": …,
"type": …, "dinfo": …}`). -/
structure DateDict where
  dd : Nat
  mm : Nat
  yy : Int
  type : DateType
  dinfo : DInfo
deriving DecidableEq

/-- Per-invocation detector context: the reference instant `now_date`
and the optional `bot_message`. -/
structure Ctx where
  now : DateTime
  botMessage : Option Text

/-!
## `normalize_year`
-/

/-- `past_regex = re.compile(r'birth|bday|dob|born')`. -/
def pastRegex : Re :=
  ralt [rstr "birth", rstr "bday", rstr "dob", rstr "born"]

/-- `present_regex = None` in the source. -/
def presentRegex : Option Re := none

/-- `future_regex = None` in the source. -/
def futureRegex : Option Re := none

/-- `int(str(self.now_date.year)[:2])`. -/
def thisCentury (ctx : Ctx) : Nat :=
  digitsToNat (List.take 2 (Nat.toDigits 10 ctx.now.year.toNat))

/-- `DateDetector.normalize_year`.  The `elif present_regex and …` and
`elif future_regex and …` branches are transcribed as in the source,
where both regexes are `None`, so those guards can never hold. -/
def normalizeYear (ctx : Ctx) (year : Text) : Text :=
  let c := thisCentury ctx
  if year.length = 2 then
    match ctx.botMessage with
    | some msg =>
      if reSearch pastRegex msg then Nat.toDigits 10 (c - 1) ++ year
      else if (match presentRegex with
               | some r => reSearch r msg
               | none => false) then Nat.toDigits 10 c ++ year
      else if (match futureRegex with
               | some r => reSearch r msg
               | none => false) then Nat.toDigits 10 (c + 1) ++ year
      else Nat.toDigits 10 c ++ year
    | none => Nat.toDigits 10 c ++ year
  else year

example :
    normalizeYear ⟨⟨2024, 3, 15, 0⟩, some ("your birth date?".toList)⟩
      ("99".toList) = "1999".toList := by decide

example :
    normalizeYear ⟨⟨2024, 3, 15, 0⟩, none⟩ ("99".toList) =
      "2099".toList := by decide

/-!
## The detector regular expressions

Each `pat…` definition transcribes one `re.compile(...)` literal from the
source, with Python's capture-group numbering.
-/

/-- `([12][0-9]|3[01]|0?[1-9])` — day field of the numeric grammars. -/
def dayPat : Re :=
  ralt [rcat [rcls "12", rdigit],
        rcat [rchr '3', rcls "01"],
        rcat [.opt (rchr '0'), rcls "123456789"]]

/-- `(1[0-2]|0?[1-9])` — month field of the numeric grammars. -/
def monthPat : Re :=
  ralt [rcat [rchr '1', rcls "012"],
        rcat [.opt (rchr '0'), rcls "123456789"]]

/-- `(?:20|19)?[0-9]{2}` — 2- or 4-digit year. -/
def yy2Pat : Re :=
  rcat [.opt (ralt [rstr "20", rstr "19"]), rdigit, rdigit]

/-- `(?:20|19)[0-9]{2}` — 4-digit year. -/
def yy4Pat : Re :=
  rcat [ralt [rstr "20", rstr "19"], rdigit, rdigit]

/-- `[/\-\.]`. -/
def sepNum : Re := rcls "/-."

/-- `\s?`. -/
def osp : Re := .opt rspace

/-- `\s*`. -/
def ssp : Re := .star rspace

/-- `\s+`. -/
def sp1 : Re := rplus rspace

/-- `(?:nd|st|rd|th)?`. -/
def ordOpt : Re := .opt (ralt [rstr "nd", rstr "st", rstr "rd", rstr "th"])

/-- `(?:nd|st|rd|th)`. -/
def ordReq : Re := ralt [rstr "nd", rstr "st", rstr "rd", rstr "th"]

/-- `[A-Za-z]+`. -/
def alphaSeq : Re := rplus ralpha

/-- `[\s\,\-]`. -/
def clsSCD : Re := .pred (fun c => pyIsSpace c || c == ',' || c == '-')

/-- `da?y`. -/
def reDayWord : Re := rcat [rchr 'd', .opt (rchr 'a'), rchr 'y']

/-- `afte?r`. -/
def reAfterWord : Re := rcat [rstr "aft", .opt (rchr 'e'), rchr 'r']

/-- `tomm?orr?o?w`. -/
def reTomorrowWord : Re :=
  rcat [rstr "tom", .opt (rchr 'm'), rstr "or", .opt (rchr 'r'),
        .opt (rchr 'o'), rchr 'w']

/-- `_gregorian_day_month_year_format`:
`\b(([12][0-9]|3[01]|0?[1-9])\s?[/\-\.]\s?(1[0-2]|0?[1-9])(?:\s?[/\-\.]\s?((?:20|19)?[0-9]{2}))?)(?:\s|$)` -/
def patDMY : Re :=
  rcat [.wordB,
        .group 1 (rcat [.group 2 dayPat, osp, sepNum, osp, .group 3 monthPat,
                        .opt (rcat [osp, sepNum, osp, .group 4 yy2Pat])]),
        ralt [rspace, .eos]]

/-- `_gregorian_month_day_year_format`:
`\b((1[0-2]|0?[1-9])\s?[/\-\.]\s?([12][0-9]|3[01]|0?[1-9])\s?[/\-\.]\s?((?:20|19)?[0-9]{2}))(\s|$)` -/
def patMDY : Re :=
  rcat [.wordB,
        .group 1 (rcat [.group 2 monthPat, osp, sepNum, osp, .group 3 dayPat,
                        osp, sepNum, osp, .group 4 yy2Pat]),
        .group 5 (ralt [rspace, .eos])]

/-- `_gregorian_year_month_day_format`:
`\b(((?:20|19)[0-9]{2})\s?[/\-\.]\s?(1[0-2]|0?[1-9])\s?[/\-\.]\s?([12][0-9]|3[01]|0?[1-9]))(\s|$)` -/
def patYMD : Re :=
  rcat [.wordB,
        .group 1 (rcat [.group 2 yy4Pat, osp, sepNum, osp, .group 3 monthPat,
                        osp, sepNum, osp, .group 4 dayPat]),
        .group 5 (ralt [rspace, .eos])]

/-- `_gregorian_day_month_word_year_format`:
`\b(([12][0-9]|3[01]|0?[1-9])\s?[\/\ \-\.\,]\s?([A-Za-z]+)\s?[\/\ \-\.\,]\s?((?:20|19)?[0-9]{2}))(\s|$)` -/
def patDMwY : Re :=
  rcat [.wordB,
        .group 1 (rcat [.group 2 dayPat, osp, rcls "/ -.,", osp,
                        .group 3 alphaSeq, osp, rcls "/ -.,", osp,
                        .group 4 yy2Pat]),
        .group 5 (ralt [rspace, .eos])]

/-- `_gregorian_day_with_ordinals_month_year_format`:
`\b(([12][0-9]|3[01]|0?[1-9])\s?(?:nd|st|rd|th)?\s?(?:of)?[\s\,\-]\s?([A-Za-z]+)[\s\,\-]\s?((?:20|19)?[0-9]{2}))(\s|$)` -/
def patDOrdMwY : Re :=
  rcat [.wordB,
        .group 1 (rcat [.group 2 dayPat, osp, ordOpt, osp, .opt (rstr "of"),
                        clsSCD, osp, .group 3 alphaSeq, clsSCD, osp,
                        .group 4 yy2Pat]),
        .group 5 (ralt [rspace, .eos])]

/-- `_gregorian_year_month_word_day_format`:
`\b(((?:20|19)[0-9]{2})\s?[\/\ \,\-]\s?([A-Za-z]+)\s?[\/\ \,\-]\s?([12][0-9]|3[01]|0?[1-9]))(\s|$)` -/
def patYMwD : Re :=
  rcat [.wordB,
        .group 1 (rcat [.group 2 yy4Pat, osp, rcls "/ ,-", osp,
                        .group 3 alphaSeq, osp, rcls "/ ,-", osp,
                        .group 4 dayPat]),
        .group 5 (ralt [rspace, .eos])]

/-- `_gregorian_year_day_month_format`:
`\b(((?:20|19)[0-9]{2})[\ \,]\s?([12][0-9]|3[01]|0?[1-9])\s?(?:nd|st|rd|th)?[\ \,]([A-Za-z]+))\b` -/
def patYDMw : Re :=
  rcat [.wordB,
        .group 1 (rcat [.group 2 yy4Pat, rcls " ,", osp, .group 3 dayPat,
                        osp, ordOpt, rcls " ,", .group 4 alphaSeq]),
        .wordB]

/-- `_gregorian_month_day_with_ordinals_year_format`:
`\b(([A-Za-z]+)[\ \,\-]\s?([12][0-9]|3[01]|0?[1-9])\s?(?:nd|st|rd|th)?[\ \,\-]\s?((?:20|19)?[0-9]{2}))(\s|$)` -/
def patMwDOrdY : Re :=
  rcat [.wordB,
        .group 1 (rcat [.group 2 alphaSeq, rcls " ,-", osp, .group 3 dayPat,
                        osp, ordOpt, rcls " ,-", osp, .group 4 yy2Pat]),
        .group 5 (ralt [rspace, .eos])]

/-- `_gregorian_month_day_format`:
`\b(([A-Za-z]+)[\ \,]\s?([12][0-9]|3[01]|0?[1-9])\s?(?:nd|st|rd|th)?)\b` -/
def patMwD : Re :=
  rcat [.wordB,
        .group 1 (rcat [.group 2 alphaSeq, rcls " ,", osp, .group 3 dayPat,
                        osp, ordOpt]),
        .wordB]

/-- `_gregorian_day_month_format`:
`\b(([12][0-9]|3[01]|0?[1-9])\s?(?:nd|st|rd|th)?[\ \,]\s?(?:of)?\s?([A-Za-z]+))\b` -/
def patDMw : Re :=
  rcat [.wordB,
        .group 1 (rcat [.group 2 dayPat, osp, ordOpt, rcls " ,", osp,
                        .opt (rstr "of"), osp, .group 3 alphaSeq]),
        .wordB]

/-- `_todays_date`: `\b(today|2dy|2day|tody|aaj|aj|tonight)\b` -/
def patToday : Re :=
  rcat [.wordB,
        .group 1 (ralt [rstr "today", rstr "2dy", rstr "2day", rstr "tody",
                        rstr "aaj", rstr "aj", rstr "tonight"]),
        .wordB]

/-- `_tomorrows_date`:
`\b(tomm?orr?o?w|tmr?rw|tomro|2morow|2mrw|2mrr?o?w|kal|next day|afte?r\s+1\s+da?y|afte?r\s+one\s+da?y|afte?r\s+a\s+da?y)\b` -/
def patTomorrow : Re :=
  rcat [.wordB,
        .group 1 (ralt
          [reTomorrowWord,
           rcat [rstr "tm", .opt (rchr 'r'), rstr "rw"],
           rstr "tomro", rstr "2morow", rstr "2mrw",
           rcat [rstr "2mr", .opt (rchr 'r'), .opt (rchr 'o'), rchr 'w'],
           rstr "kal", rstr "next day",
           rcat [reAfterWord, sp1, rchr '1', sp1, reDayWord],
           rcat [reAfterWord, sp1, rstr "one", sp1, reDayWord],
           rcat [reAfterWord, sp1, rchr 'a', sp1, reDayWord]]),
        .wordB]

/-- `_yesterdays_date`:
`\b(yeste?rday|sterday|yeste?rdy|previous day|prev day|prevday)\b` -/
def patYesterday : Re :=
  rcat [.wordB,
        .group 1 (ralt
          [rcat [rstr "yest", .opt (rchr 'e'), rstr "rday"],
           rstr "sterday",
           rcat [rstr "yest", .opt (rchr 'e'), rstr "rdy"],
           rstr "previous day", rstr "prev day", rstr "prevday"]),
        .wordB]

/-- `_day_after_tomorrow`:
`\b((da?y afte?r)\s+(tomm?orr?o?w|tmr?rw|tomro|2morow|2mrr?o?w|kal))\b` -/
def patDayAfterTomorrow : Re :=
  rcat [.wordB,
        .group 1 (rcat
          [.group 2 (rcat [reDayWord, rchr ' ', reAfterWord]),
           sp1,
           .group 3 (ralt
             [reTomorrowWord,
              rcat [rstr "tm", .opt (rchr 'r'), rstr "rw"],
              rstr "tomro", rstr "2morow",
              rcat [rstr "2mr", .opt (rchr 'r'), .opt (rchr 'o'), rchr 'w'],
              rstr "kal"])]),
        .wordB]

/-- `_date_days_after`: `\b(afte?r\s+(\d+)\s+(da?y|da?ys))\b` -/
def patDaysAfter : Re :=
  rcat [.wordB,
        .group 1 (rcat [reAfterWord, sp1, .group 2 (rplus rdigit), sp1,
                        .group 3 (ralt [reDayWord,
                                        rcat [reDayWord, rchr 's']])]),
        .wordB]

/-- `_date_days_later`: `\b((\d+)\s+(da?y|da?ys)\s?(later|ltr|latr|lter)s?)\b` -/
def patDaysLater : Re :=
  rcat [.wordB,
        .group 1 (rcat [.group 2 (rplus rdigit), sp1,
                        .group 3 (ralt [reDayWord,
                                        rcat [reDayWord, rchr 's']]),
                        osp,
                        .group 4 (ralt [rstr "later", rstr "ltr", rstr "latr",
                                        rstr "lter"]),
                        .opt (rchr 's')]),
        .wordB]

/-- `_day_before_yesterday`:
`\b((da?y befo?re)\s+(yesterday|sterday|yesterdy|yestrdy|yestrday))\b` -/
def patDayBeforeYesterday : Re :=
  rcat [.wordB,
        .group 1 (rcat
          [.group 2 (rcat [reDayWord, rchr ' ', rstr "bef", .opt (rchr 'o'),
                           rstr "re"]),
           sp1,
           .group 3 (ralt [rstr "yesterday", rstr "sterday", rstr "yesterdy",
                           rstr "yestrdy", rstr "yestrday"])]),
        .wordB]

/-- `_day_in_next_week`: `\b((ne?xt)\s+([A-Za-z]+))\b` -/
def patNextWeekday : Re :=
  rcat [.wordB,
        .group 1 (rcat [.group 2 (rcat [rchr 'n', .opt (rchr 'e'), rstr "xt"]),
                        sp1, .group 3 alphaSeq]),
        .wordB]

/-- `_day_within_one_week`: `\b((this|dis|coming|on|for)*[\s\-]*([A-Za-z]+))\b` -/
def patThisWeekday : Re :=
  rcat [.wordB,
        .group 1 (rcat
          [.star (.group 2 (ralt [rstr "this", rstr "dis", rstr "coming",
                                  rstr "on", rstr "for"])),
           .star (.pred (fun c => pyIsSpace c || c == '-')),
           .group 3 alphaSeq]),
        .wordB]

/-- `_date_identification_given_day`:
`\b(([12][0-9]|3[01]|0?[1-9])\s*(?:nd|st|rd|th))\b` -/
def patGivenDay : Re :=
  rcat [.wordB, .group 1 (rcat [.group 2 dayPat, ssp, ordReq]), .wordB]

/-- `_date_identification_given_day_and_current_month`:
`\b(([12][0-9]|3[01]|0?[1-9])\s*(?:nd|st|rd|th)?\s*(?:of)?\s*(?:this|dis)\s*(?:curr?ent)?\s*(mo?nth))\b` -/
def patGivenDayThisMonth : Re :=
  rcat [.wordB,
        .group 1 (rcat [.group 2 dayPat, ssp, ordOpt, ssp, .opt (rstr "of"),
                        ssp, ralt [rstr "this", rstr "dis"], ssp,
                        .opt (rcat [rstr "cur", .opt (rchr 'r'), rstr "ent"]),
                        ssp,
                        .group 3 (rcat [rchr 'm', .opt (rchr 'o'),
                                        rstr "nth"])]),
        .wordB]

/-- `_date_identification_given_day_and_next_month`:
`\b(([12][0-9]|3[01]|0?[1-9])\s*(?:nd|st|rd|th)?\s*(?:of)?\s*(?:ne?xt|comm?ing?|foll?owing?)\s*(mo?nth))\b` -/
def patGivenDayNextMonth : Re :=
  rcat [.wordB,
        .group 1 (rcat [.group 2 dayPat, ssp, ordOpt, ssp, .opt (rstr "of"),
                        ssp,
                        ralt [rcat [rchr 'n', .opt (rchr 'e'), rstr "xt"],
                              rcat [rstr "com", .opt (rchr 'm'), rstr "in",
                                    .opt (rchr 'g')],
                              rcat [rstr "fol", .opt (rchr 'l'), rstr "owin",
                                    .opt (rchr 'g')]],
                        ssp,
                        .group 3 (rcat [rchr 'm', .opt (rchr 'o'),
                                        rstr "nth"])]),
        .wordB]

/-!
## The detectors

Every sub-detector of the source has the shape "findall, then a loop
that either appends one date dict and its original substring, skips the
candidate, or raises".  `processMatches` is that loop; the `…Step`
functions are the loop bodies.
-/

/-- The loop over `patterns = regex_pattern.findall(...)`: each match
either errors, is skipped, or appends one (date, original) pair to both
accumulator lists. -/
def processMatches (step : List Text → Except PyError (Option (DateDict × Text))) :
    List (List Text) → List DateDict → List Text →
    Except PyError (List DateDict × List Text)
  | [], dl, ol => .ok (dl, ol)
  | m :: ms, dl, ol =>
    match step m with
    | .error e => .error e
    | .ok none => processMatches step ms dl ol
    | .ok (some (d, o)) => processMatches step ms (dl ++ [d]) (ol ++ [o])

/-- A sub-detector: takes the processed text and the two accumulator
lists, returns the extended lists (or raises). -/
abbrev Detector :=
  Ctx → Text → List DateDict → List Text →
    Except PyError (List DateDict × List Text)

/-- Loop body of `_gregorian_day_month_year_format`: year omitted means
"current year, rolled forward when the date lies in the past" (and the
`datetime.datetime` construction raises on an invalid calendar date);
a present year goes through `normalize_year`. -/
def gregorianDayMonthYearStep (ctx : Ctx) (g : List Text) :
    Except PyError (Option (DateDict × Text)) :=
  let original := g.getD 0 []
  let dd := digitsToNat (g.getD 1 [])
  let mm := digitsToNat (g.getD 2 [])
  let p3 := g.getD 3 []
  if p3.isEmpty then
    match mkDateTime ctx.now.year mm dd with
    | .error e => .error e
    | .ok dt =>
      let yy := if dtLt dt ctx.now then ctx.now.year + 1 else ctx.now.year
      .ok (some ({dd := dd, mm := mm, yy := yy, type := .exact,
                  dinfo := allDetected}, original))
  else
    .ok (some ({dd := dd, mm := mm,
                yy := Int.ofNat (digitsToNat (normalizeYear ctx p3)),
                type := .exact, dinfo := allDetected}, original))

def gregorianDayMonthYearFormat : Detector := fun ctx pt dl ol =>
  processMatches (gregorianDayMonthYearStep ctx)
    (findall patDMY 4 (lowerText pt)) dl ol

/-- Loop body of `_gregorian_month_day_year_format`. -/
def gregorianMonthDayYearStep (ctx : Ctx) (g : List Text) :
    Except PyError (Option (DateDict × Text)) :=
  .ok (some ({dd := digitsToNat (g.getD 2 []),
              mm := digitsToNat (g.getD 1 []),
              yy := Int.ofNat (digitsToNat (normalizeYear ctx (g.getD 3 []))),
              type := .exact, dinfo := allDetected}, g.getD 0 []))

def gregorianMonthDayYearFormat : Detector := fun ctx pt dl ol =>
  processMatches (gregorianMonthDayYearStep ctx)
    (findall patMDY 5 (lowerText pt)) dl ol

/-- Loop body of `_gregorian_year_month_day_format`. -/
def gregorianYearMonthDayStep (ctx : Ctx) (g : List Text) :
    Except PyError (Option (DateDict × Text)) :=
  .ok (some ({dd := digitsToNat (g.getD 3 []),
              mm := digitsToNat (g.getD 2 []),
              yy := Int.ofNat (digitsToNat (normalizeYear ctx (g.getD 1 []))),
              type := .exact, dinfo := allDetected}, g.getD 0 []))

def gregorianYearMonthDayFormat : Detector := fun ctx pt dl ol =>
  processMatches (gregorianYearMonthDayStep ctx)
    (findall patYMD 5 (lowerText pt)) dl ol

/-- Loop body of `_gregorian_day_month_word_year_format`; a month word
that fails lookup is skipped (`if mm:` guards the append). -/
def gregorianDayMonthWordYearStep (ctx : Ctx) (g : List Text) :
    Except PyError (Option (DateDict × Text)) :=
  let original := stripText (g.getD 0 [])
  let yy := Int.ofNat (digitsToNat (normalizeYear ctx (g.getD 3 [])))
  match getMonthIndex (g.getD 2 []) with
  | some mm =>
    .ok (some ({dd := digitsToNat (g.getD 1 []), mm := mm, yy := yy,
                type := .exact, dinfo := allDetected}, original))
  | none => .ok none

def gregorianDayMonthWordYearFormat : Detector := fun ctx pt dl ol =>
  processMatches (gregorianDayMonthWordYearStep ctx)
    (findall patDMwY 5 (lowerText pt)) dl ol

/-- Loop body of `_gregorian_day_with_ordinals_month_year_format`. -/
def gregorianDayWithOrdinalsMonthYearStep (ctx : Ctx) (g : List Text) :
    Except PyError (Option (DateDict × Text)) :=
  let original := stripText (g.getD 0 [])
  let yy := Int.ofNat (digitsToNat (normalizeYear ctx (g.getD 3 [])))
  match getMonthIndex (g.getD 2 []) with
  | some mm =>
    .ok (some ({dd := digitsToNat (g.getD 1 []), mm := mm, yy := yy,
                type := .exact, dinfo := allDetected}, original))
  | none => .ok none

def gregorianDayWithOrdinalsMonthYearFormat : Detector := fun ctx pt dl ol =>
  processMatches (gregorianDayWithOrdinalsMonthYearStep ctx)
    (findall patDOrdMwY 5 (lowerText pt)) dl ol

/-- Loop body of `_gregorian_year_month_word_day_format`. -/
def gregorianYearMonthWordDayStep (ctx : Ctx) (g : List Text) :
    Except PyError (Option (DateDict × Text)) :=
  let original := g.getD 0 []
  let yy := Int.ofNat (digitsToNat (normalizeYear ctx (g.getD 1 [])))
  match getMonthIndex (g.getD 2 []) with
  | some mm =>
    .ok (some ({dd := digitsToNat (g.getD 3 []), mm := mm, yy := yy,
                type := .exact, dinfo := allDetected}, original))
  | none => .ok none

def gregorianYearMonthWordDayFormat : Detector := fun ctx pt dl ol =>
  processMatches (gregorianYearMonthWordDayStep ctx)
    (findall patYMwD 5 (lowerText pt)) dl ol

/-- Loop body of `_gregorian_year_day_month_format`. -/
def gregorianYearDayMonthStep (ctx : Ctx) (g : List Text) :
    Except PyError (Option (DateDict × Text)) :=
  let original := g.getD 0 []
  let yy := Int.ofNat (digitsToNat (normalizeYear ctx (g.getD 1 [])))
  match getMonthIndex (g.getD 3 []) with
  | some mm =>
    .ok (some ({dd := digitsToNat (g.getD 2 []), mm := mm, yy := yy,
                type := .exact, dinfo := allDetected}, original))
  | none => .ok none

def gregorianYearDayMonthFormat : Detector := fun ctx pt dl ol =>
  processMatches (gregorianYearDayMonthStep ctx)
    (findall patYDMw 4 (lowerText pt)) dl ol

/-- Loop body of `_gregorian_month_day_with_ordinals_year_format`. -/
def gregorianMonthDayWithOrdinalsYearStep (ctx : Ctx) (g : List Text) :
    Except PyError (Option (DateDict × Text)) :=
  let original := g.getD 0 []
  let yy := Int.ofNat (digitsToNat (normalizeYear ctx (g.getD 3 [])))
  match getMonthIndex (g.getD 1 []) with
  | some mm =>
    .ok (some ({dd := digitsToNat (g.getD 2 []), mm := mm, yy := yy,
                type := .exact, dinfo := allDetected}, original))
  | none => .ok none

def gregorianMonthDayWithOrdinalsYearFormat : Detector := fun ctx pt dl ol =>
  processMatches (gregorianMonthDayWithOrdinalsYearStep ctx)
    (findall patMwDOrdY 5 (lowerText pt)) dl ol

/-- Loop body of `_gregorian_day_month_format` (day before month word,
year inferred).  The source compares `self.now_date.month > mm` before
the `if mm:` guard; when the month lookup returned `None` this
comparison raises `TypeError` under Python 3. -/
def gregorianDayMonthStep (ctx : Ctx) (g : List Text) :
    Except PyError (Option (DateDict × Text)) :=
  let original := g.getD 0 []
  let dd := digitsToNat (g.getD 1 [])
  match getMonthIndex (g.getD 2 []) with
  | none => .error .typeError
  | some mm =>
    let yy :=
      if ctx.now.month > mm then ctx.now.year + 1
      else if ctx.now.day > dd ∧ ctx.now.month = mm then ctx.now.year + 1
      else ctx.now.year
    .ok (some ({dd := dd, mm := mm, yy := yy, type := .exact,
                dinfo := ⟨.detected, .detected, .inferred⟩}, original))

def gregorianDayMonthFormat : Detector := fun ctx pt dl ol =>
  processMatches (gregorianDayMonthStep ctx)
    (findall patDMw 3 (lowerText pt)) dl ol

/-- Loop body of `_gregorian_month_day_format` (month word before day,
year inferred); same Python-3 `TypeError` on a failed month lookup. -/
def gregorianMonthDayStep (ctx : Ctx) (g : List Text) :
    Except PyError (Option (DateDict × Text)) :=
  let original := g.getD 0 []
  let dd := digitsToNat (g.getD 2 [])
  match getMonthIndex (g.getD 1 []) with
  | none => .error .typeError
  | some mm =>
    let yy :=
      if ctx.now.month > mm then ctx.now.year + 1
      else if ctx.now.day > dd ∧ ctx.now.month = mm then ctx.now.year + 1
      else ctx.now.year
    .ok (some ({dd := dd, mm := mm, yy := yy, type := .exact,
                dinfo := ⟨.detected, .detected, .inferred⟩}, original))

def gregorianMonthDayFormat : Detector := fun ctx pt dl ol =>
  processMatches (gregorianMonthDayStep ctx)
    (findall patMwD 3 (lowerText pt)) dl ol

/-- Loop body of `_todays_date`. -/
def todaysDateStep (ctx : Ctx) (g : List Text) :
    Except PyError (Option (DateDict × Text)) :=
  .ok (some ({dd := ctx.now.day, mm := ctx.now.month, yy := ctx.now.year,
              type := .today, dinfo := allDetected}, g.getD 0 []))

def todaysDate : Detector := fun ctx pt dl ol =>
  processMatches (todaysDateStep ctx) (findall patToday 1 (lowerText pt)) dl ol

/-- Loop body of `_tomorrows_date`. -/
def tomorrowsDateStep (ctx : Ctx) (g : List Text) :
    Except PyError (Option (DateDict × Text)) :=
  let d := addDays ctx.now 1
  .ok (some ({dd := d.day, mm := d.month, yy := d.year,
              type := .tomorrow, dinfo := allDetected}, g.getD 0 []))

def tomorrowsDate : Detector := fun ctx pt dl ol =>
  processMatches (tomorrowsDateStep ctx)
    (findall patTomorrow 1 (lowerText pt)) dl ol

/-- Loop body of `_yesterdays_date`. -/
def yesterdaysDateStep (ctx : Ctx) (g : List Text) :
    Except PyError (Option (DateDict × Text)) :=
  let d := addDays ctx.now (-1)
  .ok (some ({dd := d.day, mm := d.month, yy := d.year,
              type := .yesterday, dinfo := allDetected}, g.getD 0 []))

def yesterdaysDate : Detector := fun ctx pt dl ol =>
  processMatches (yesterdaysDateStep ctx)
    (findall patYesterday 1 (lowerText pt)) dl ol

/-- Loop body of `_day_after_tomorrow`. -/
def dayAfterTomorrowStep (ctx : Ctx) (g : List Text) :
    Except PyError (Option (DateDict × Text)) :=
  let d := addDays ctx.now 2
  .ok (some ({dd := d.day, mm := d.month, yy := d.year,
              type := .dayAfter, dinfo := allDetected}, g.getD 0 []))

def dayAfterTomorrow : Detector := fun ctx pt dl ol =>
  processMatches (dayAfterTomorrowStep ctx)
    (findall patDayAfterTomorrow 3 (lowerText pt)) dl ol

/-- Loop body of `_date_days_after`. -/
def dateDaysAfterStep (ctx : Ctx) (g : List Text) :
    Except PyError (Option (DateDict × Text)) :=
  let d := addDays ctx.now (Int.ofNat (digitsToNat (g.getD 1 [])))
  .ok (some ({dd := d.day, mm := d.month, yy := d.year,
              type := .nDaysAfter, dinfo := allDetected}, g.getD 0 []))

def dateDaysAfter : Detector := fun ctx pt dl ol =>
  processMatches (dateDaysAfterStep ctx)
    (findall patDaysAfter 3 (lowerText pt)) dl ol

/-- Loop body of `_date_days_later`. -/
def dateDaysLaterStep (ctx : Ctx) (g : List Text) :
    Except PyError (Option (DateDict × Text)) :=
  let d := addDays ctx.now (Int.ofNat (digitsToNat (g.getD 1 [])))
  .ok (some ({dd := d.day, mm := d.month, yy := d.year,
              type := .nDaysAfter, dinfo := allDetected}, g.getD 0 []))

def dateDaysLater : Detector := fun ctx pt dl ol =>
  processMatches (dateDaysLaterStep ctx)
    (findall patDaysLater 4 (lowerText pt)) dl ol

/-- Loop body of `_day_before_yesterday`. -/
def dayBeforeYesterdayStep (ctx : Ctx) (g : List Text) :
    Except PyError (Option (DateDict × Text)) :=
  let d := addDays ctx.now (-2)
  .ok (some ({dd := d.day, mm := d.month, yy := d.year,
              type := .dayBefore, dinfo := allDetected}, g.getD 0 []))

def dayBeforeYesterday : Detector := fun ctx pt dl ol =>
  processMatches (dayBeforeYesterdayStep ctx)
    (findall patDayBeforeYesterday 3 (lowerText pt)) dl ol

/-- Loop body of `_day_in_next_week`: `next <weekday>` resolves to
`now + (day - current_day + 7)` days when both weekday lookups succeed,
and is skipped otherwise. -/
def dayInNextWeekStep (ctx : Ctx) (g : List Text) :
    Except PyError (Option (DateDict × Text)) :=
  let original := g.getD 0 []
  match getDayIndex (g.getD 2 []), getDayIndex (strftimeA ctx.now) with
  | some day, some currentDay =>
    let d := addDays ctx.now (Int.ofNat day - Int.ofNat currentDay + 7)
    .ok (some ({dd := d.day, mm := d.month, yy := d.year,
                type := .nextDay, dinfo := allDetected}, original))
  | _, _ => .ok none

def dayInNextWeek : Detector := fun ctx pt dl ol =>
  processMatches (dayInNextWeekStep ctx)
    (findall patNextWeekday 3 (lowerText pt)) dl ol

/-- Loop body of `_day_within_one_week`: offset `day - current_day`
when `current_day <= day`, else `day - current_day + 7`. -/
def dayWithinOneWeekStep (ctx : Ctx) (g : List Text) :
    Except PyError (Option (DateDict × Text)) :=
  let original := stripText (g.getD 0 [])
  match getDayIndex (g.getD 2 []), getDayIndex (strftimeA ctx.now) with
  | some day, some currentDay =>
    let off : Int :=
      if currentDay ≤ day then Int.ofNat day - Int.ofNat currentDay
      else Int.ofNat day - Int.ofNat currentDay + 7
    let d := addDays ctx.now off
    .ok (some ({dd := d.day, mm := d.month, yy := d.year,
                type := .thisDay, dinfo := allDetected}, original))
  | _, _ => .ok none

def dayWithinOneWeek : Detector := fun ctx pt dl ol =>
  processMatches (dayWithinOneWeekStep ctx)
    (findall patThisWeekday 3 (lowerText pt)) dl ol

/-- Loop body of `_date_identification_given_day`: the source constructs
`datetime.date(year=yy, month=mm, day=dd)` — which raises `ValueError`
for a day that does not exist in the current month — before comparing it
with `now_date.date()` and possibly rolling the month/year forward. -/
def dateIdentificationGivenDayStep (ctx : Ctx) (g : List Text) :
    Except PyError (Option (DateDict × Text)) :=
  let original := g.getD 0 []
  let dd := digitsToNat (g.getD 1 [])
  match mkDate ctx.now.year ctx.now.month dd with
  | .error e => .error e
  | .ok _ =>
    let p :=
      if dateLt ctx.now.year ctx.now.month dd
          ctx.now.year ctx.now.month ctx.now.day then
        (if ctx.now.month + 1 > 12 then (1, ctx.now.year + 1)
         else (ctx.now.month + 1, ctx.now.year))
      else (ctx.now.month, ctx.now.year)
    .ok (some ({dd := dd, mm := p.1, yy := p.2, type := .possibleDay,
                dinfo := ⟨.detected, .inferred, .inferred⟩}, original))

def dateIdentificationGivenDay : Detector := fun ctx pt dl ol =>
  processMatches (dateIdentificationGivenDayStep ctx)
    (findall patGivenDay 2 (lowerText pt)) dl ol

/-- Loop body of `_date_identification_given_day_and_current_month`. -/
def dateIdentificationGivenDayAndCurrentMonthStep (ctx : Ctx) (g : List Text) :
    Except PyError (Option (DateDict × Text)) :=
  .ok (some ({dd := digitsToNat (g.getD 1 []), mm := ctx.now.month,
              yy := ctx.now.year, type := .exact,
              dinfo := allDetected}, g.getD 0 []))

def dateIdentificationGivenDayAndCurrentMonth : Detector := fun ctx pt dl ol =>
  processMatches (dateIdentificationGivenDayAndCurrentMonthStep ctx)
    (findall patGivenDayThisMonth 3 (lowerText pt)) dl ol

/-- Loop body of `_date_identification_given_day_and_next_month`. -/
def dateIdentificationGivenDayAndNextMonthStep (ctx : Ctx) (g : List Text) :
    Except PyError (Option (DateDict × Text)) :=
  let p :=
    if ctx.now.month + 1 > 12 then (1, ctx.now.year + 1)
    else (ctx.now.month + 1, ctx.now.year)
  .ok (some ({dd := digitsToNat (g.getD 1 []), mm := p.1, yy := p.2,
              type := .exact, dinfo := allDetected}, g.getD 0 []))

def dateIdentificationGivenDayAndNextMonth : Detector := fun ctx pt dl ol =>
  processMatches (dateIdentificationGivenDayAndNextMonthStep ctx)
    (findall patGivenDayNextMonth 3 (lowerText pt)) dl ol

/-!
## The pipeline (`detect_date` / `get_exact_date` / `get_possible_date`)
-/

/-- `self._exact_date_detectors`, in source order. -/
def exactDateDetectors : List Detector :=
  [gregorianDayMonthYearFormat,
   gregorianMonthDayYearFormat,
   gregorianYearMonthDayFormat,
   gregorianDayMonthWordYearFormat,
   gregorianDayWithOrdinalsMonthYearFormat,
   gregorianYearMonthWordDayFormat,
   gregorianYearDayMonthFormat,
   gregorianMonthDayWithOrdinalsYearFormat,
   gregorianDayMonthFormat,
   gregorianMonthDayFormat,
   dayAfterTomorrow,
   dateDaysAfter,
   dateDaysLater,
   dayBeforeYesterday,
   todaysDate,
   tomorrowsDate,
   yesterdaysDate,
   dayInNextWeek,
   dayWithinOneWeek,
   dateIdentificationGivenDayAndCurrentMonth,
   dateIdentificationGivenDayAndNextMonth]

/-- `self._possible_date_detectors`. -/
def possibleDateDetectors : List Detector :=
  [dateIdentificationGivenDay]

/-- Pipeline state: processed text and the two accumulator lists
(the `tagged_text` buffer is exposition-only and not consumed by any
matcher, so it is not modelled). -/
abbrev PipeState := Text × List DateDict × List Text

/-- `DateDetector._update_processed_text`: remove every accumulated
original substring from the processed text by global replacement. -/
def updateProcessedText (pt : Text) (originals : List Text) : Text :=
  originals.foldl (fun t s => replaceAll t s) pt

/-- One iteration of the detector loop: run the detector on the current
processed text, then `_update_processed_text(original_list)`. -/
def runDetector (det : Detector) (ctx : Ctx) (st : PipeState) :
    Except PyError PipeState :=
  match det ctx st.1 st.2.1 st.2.2 with
  | .error e => .error e
  | .ok (dl, ol) => .ok (updateProcessedText st.1 ol, dl, ol)

/-- The `for detector in …` loops of `get_exact_date` and
`get_possible_date`. -/
def runDetectors : List Detector → Ctx → PipeState → Except PyError PipeState
  | [], _, st => .ok st
  | det :: ds, ctx, st =>
    match runDetector det ctx st with
    | .error e => .error e
    | .ok st' => runDetectors ds ctx st'

/-- `self.text = " " + text.strip().lower() + " "`, with empty
accumulators. -/
def initState (text : Text) : PipeState :=
  (' ' :: (lowerText (stripText text) ++ [' ']), [], [])

/-- `DateDetector.detect_date`: run the exact tier, then the possible
tier, each detector followed by its `_update_processed_text`. -/
def detectDate (ctx : Ctx) (text : Text) :
    Except PyError (List DateDict × List Text) :=
  match runDetectors (exactDateDetectors ++ possibleDateDetectors) ctx
      (initState text) with
  | .error e => .error e
  | .ok (_, dl, ol) => .ok (dl, ol)

example :
    detectDate ⟨⟨2024, 3, 15, 3600⟩, none⟩ ("tomorrow".toList) =
      .ok ([{dd := 16, mm := 3, yy := 2024, type := .tomorrow,
             dinfo := allDetected}], ["tomorrow".toList]) := rfl

/-!
## Structural lemmas about the pipeline
-/

/-- The match loop only ever appends matched (date, original) pairs, in
lockstep, to the two accumulator lists. -/
theorem processMatches_extend
    (step : List Text → Except PyError (Option (DateDict × Text))) :
    ∀ (ms : List (List Text)) (dl : List DateDict) (ol : List Text)
      (dl' : List DateDict) (ol' : List Text),
      processMatches step ms dl ol = .ok (dl', ol') →
      ∃ ps : List (DateDict × Text),
        dl' = dl ++ ps.map Prod.fst ∧ ol' = ol ++ ps.map Prod.snd := by
  intro ms
  induction ms with
  | nil =>
    intro dl ol dl' ol' h
    simp only [processMatches, Except.ok.injEq, Prod.mk.injEq] at h
    exact ⟨[], by simp [h.1, h.2]⟩
  | cons m ms ih =>
    intro dl ol dl' ol' h
    simp only [processMatches] at h
    cases hstep : step m with
    | error e => rw [hstep] at h; cases h
    | ok o =>
      rw [hstep] at h
      cases o with
      | none => exact ih dl ol dl' ol' h
      | some p =>
        obtain ⟨ps, h1, h2⟩ := ih (dl ++ [p.1]) (ol ++ [p.2]) dl' ol' h
        exact ⟨p :: ps, by simp [h1], by simp [h2]⟩

/-- A detector invocation followed by `_update_processed_text` keeps the
append-only lockstep structure of the accumulators, given that the
detector itself does. -/
theorem runDetectors_extend (dets : List Detector)
    (hdets : ∀ det ∈ dets, ∀ ctx pt dl ol dl' ol',
      det ctx pt dl ol = .ok (dl', ol') →
      ∃ ps : List (DateDict × Text),
        dl' = dl ++ ps.map Prod.fst ∧ ol' = ol ++ ps.map Prod.snd) :
    ∀ ctx pt dl ol pt' dl' ol',
      runDetectors dets ctx (pt, dl, ol) = .ok (pt', dl', ol') →
      ∃ ps : List (DateDict × Text),
        dl' = dl ++ ps.map Prod.fst ∧ ol' = ol ++ ps.map Prod.snd := by
  induction dets with
  | nil =>
    intro ctx pt dl ol pt' dl' ol' h
    simp only [runDetectors, Except.ok.injEq, Prod.mk.injEq] at h
    exact ⟨[], by simp [h.2.1, h.2.2]⟩
  | cons d ds ih =>
    intro ctx pt dl ol pt' dl' ol' h
    simp only [runDetectors, runDetector] at h
    cases hd : d ctx pt dl ol with
    | error e => rw [hd] at h; cases h
    | ok p =>
      rw [hd] at h
      obtain ⟨ps1, h1, h2⟩ := hdets d (List.mem_cons_self d ds)
        ctx pt dl ol p.1 p.2 (by rw [hd])
      obtain ⟨ps2, h3, h4⟩ :=
        ih (fun det hm => hdets det (List.mem_cons_of_mem d hm))
          ctx (updateProcessedText pt p.2) p.1 p.2 pt' dl' ol' h
      exact ⟨ps1 ++ ps2, by simp [h3, h1], by simp [h4, h2]⟩

/-- Splitting the detector list: the detectors of `as` all run (and
claim text) before any detector of `bs`. -/
theorem runDetectors_append (as bs : List Detector) (ctx : Ctx) :
    ∀ st, runDetectors (as ++ bs) ctx st =
      match runDetectors as ctx st with
      | .error e => .error e
      | .ok st' => runDetectors bs ctx st' := by
  induction as with
  | nil => intro st; simp [runDetectors]
  | cons d ds ih =>
    intro st
    simp only [List.cons_append, runDetectors]
    cases runDetector d ctx st <;> simp [ih]

/-- Every sub-detector of the pipeline extends the accumulators in
lockstep (each is an instance of `processMatches`). -/
theorem allDetectorsExtend :
    ∀ det ∈ exactDateDetectors ++ possibleDateDetectors,
      ∀ ctx pt dl ol dl' ol',
        det ctx pt dl ol = .ok (dl', ol') →
        ∃ ps : List (DateDict × Text),
          dl' = dl ++ ps.map Prod.fst ∧ ol' = ol ++ ps.map Prod.snd := by
  intro det hdet
  simp only [exactDateDetectors, possibleDateDetectors, List.cons_append,
    List.nil_append, List.mem_cons, List.not_mem_nil, or_false] at hdet
  rcases hdet with h | h | h | h | h | h | h | h | h | h | h |
    h | h | h | h | h | h | h | h | h | h | h <;>
    subst h <;>
    exact fun ctx pt dl ol dl' ol' h => processMatches_extend _ _ _ _ _ _ h

/-!
## Claim theorems
-/

/-- C1: the pair of lists returned by `detect_date` — and by every
individual sub-detector invocation, which takes accumulator lists and
returns extended ones — satisfies `len(dates) == len(spans)`, and
`dates[i]` and `spans[i]` were produced together, as the two components
of a single appended pair coming from one detector invocation's match. -/
theorem detect_date_pairing_invariant :
    (∀ det ∈ exactDateDetectors ++ possibleDateDetectors,
      ∀ ctx pt dl ol dl' ol',
        det ctx pt dl ol = .ok (dl', ol') →
        ∃ ps : List (DateDict × Text),
          dl' = dl ++ ps.map Prod.fst ∧ ol' = ol ++ ps.map Prod.snd)
  ∧ (∀ ctx text dl ol, detectDate ctx text = .ok (dl, ol) →
      ∃ ps : List (DateDict × Text),
        dl = ps.map Prod.fst ∧ ol = ps.map Prod.snd ∧
        dl.length = ol.length) := by
  refine ⟨allDetectorsExtend, ?_⟩
  intro ctx text dl ol h
  simp only [detectDate] at h
  cases hrun : runDetectors (exactDateDetectors ++ possibleDateDetectors) ctx
      (initState text) with
  | error e => rw [hrun] at h; cases h
  | ok st =>
    rw [hrun] at h
    simp only [Except.ok.injEq, Prod.mk.injEq] at h
    obtain ⟨ps, h1, h2⟩ := runDetectors_extend _ allDetectorsExtend
      ctx (initState text).1 [] [] st.1 st.2.1 st.2.2 hrun
    refine ⟨ps, ?_, ?_, ?_⟩
    · rw [← h.1, h1]; simp
    · rw [← h.2, h2]; simp
    · rw [← h.1, ← h.2, h1, h2]; simp

/-- Witness for C1 at a concrete input. -/
theorem detect_date_pairing_invariant_witness :
    ∃ ps : List (DateDict × Text),
      [({dd := 16, mm := 3, yy := 2024, type := .tomorrow,
         dinfo := allDetected} : DateDict)] = ps.map Prod.fst ∧
      ["tomorrow".toList] = ps.map Prod.snd ∧
      ([({dd := 16, mm := 3, yy := 2024, type := .tomorrow,
          dinfo := allDetected} : DateDict)]).length =
        (["tomorrow".toList]).length :=
  detect_date_pairing_invariant.2 ⟨⟨2024, 3, 15, 3600⟩, none⟩
    ("tomorrow".toList) _ _ rfl

/-- C2 counterexample: `_update_processed_text` removes claimed
substrings by global string replacement, and a removal can join the
surrounding fragments into a new occurrence of an already-claimed
substring.  For the text `"1/2/ 2000 1/2/9/12/2000 2000"`, the first
exact-tier detector claims `"1/2/ 2000"` (and `"9/12/2000"`); deleting
`"9/12/2000"` out of `"1/2/9/12/2000 2000"` re-creates `"1/2/ 2000"`,
which is therefore visible to — and re-matched and re-emitted by — the
second detector, contradicting the claim that a claimed substring is
never visible to a later detector. -/
theorem claimed_span_rematched_by_later_detector :
    runDetectors (List.take 1 exactDateDetectors) ⟨⟨2024, 3, 15, 43200⟩, none⟩
        (initState ("1/2/ 2000 1/2/9/12/2000 2000".toList)) =
      .ok ("  1/2/ 2000 ".toList,
           [{dd := 1, mm := 2, yy := 2000, type := .exact,
             dinfo := allDetected},
            {dd := 9, mm := 12, yy := 2000, type := .exact,
             dinfo := allDetected}],
           ["1/2/ 2000".toList, "9/12/2000".toList])
  ∧ containsSub ("  1/2/ 2000 ".toList) ("1/2/ 2000".toList) = true
  ∧ detectDate ⟨⟨2024, 3, 15, 43200⟩, none⟩
        ("1/2/ 2000 1/2/9/12/2000 2000".toList) =
      .ok ([{dd := 1, mm := 2, yy := 2000, type := .exact,
             dinfo := allDetected},
            {dd := 9, mm := 12, yy := 2000, type := .exact,
             dinfo := allDetected},
            {dd := 2, mm := 1, yy := 2000, type := .exact,
             dinfo := allDetected}],
           ["1/2/ 2000".toList, "9/12/2000".toList, "1/2/ 2000".toList]) :=
  ⟨rfl, rfl, rfl⟩

/-- C2 (amended): `detect_date` runs all exact-tier detectors before any
possible-tier detector, and after each detector runs, every substring in
the accumulated claimed list is removed from the processed text by
global replacement (which does not in general keep a claimed substring
invisible to later detectors, see the counterexample); in the particular
numeric-date-plus-bare-ordinal scenario the exact-tier match is emitted
and the possible-tier detector never sees the claimed span. -/
theorem detector_tier_order_and_span_removal :
    (∀ ctx text, detectDate ctx text =
      match runDetectors exactDateDetectors ctx (initState text) with
      | .error e => .error e
      | .ok st =>
        match runDetectors possibleDateDetectors ctx st with
        | .error e => .error e
        | .ok (_, dl, ol) => .ok (dl, ol))
  ∧ (∀ det ctx st, runDetector det ctx st =
      match det ctx st.1 st.2.1 st.2.2 with
      | .error e => .error e
      | .ok (dl, ol) => .ok (updateProcessedText st.1 ol, dl, ol))
  ∧ (∀ pt originals,
      updateProcessedText pt originals =
        originals.foldl (fun t s => replaceAll t s) pt)
  ∧ runDetectors exactDateDetectors ⟨⟨2024, 3, 15, 43200⟩, none⟩
        (initState ("21/3/2024 25th".toList)) =
      .ok ("  25th ".toList,
           [{dd := 21, mm := 3, yy := 2024, type := .exact,
             dinfo := allDetected}],
           ["21/3/2024".toList])
  ∧ containsSub ("  25th ".toList) ("21/3/2024".toList) = false
  ∧ detectDate ⟨⟨2024, 3, 15, 43200⟩, none⟩ ("21/3/2024 25th".toList) =
      .ok ([{dd := 21, mm := 3, yy := 2024, type := .exact,
             dinfo := allDetected},
            {dd := 25, mm := 3, yy := 2024, type := .possibleDay,
             dinfo := ⟨.detected, .inferred, .inferred⟩}],
           ["21/3/2024".toList, "25th".toList]) := by
  refine ⟨?_, fun det ctx st => rfl, fun pt originals => rfl, rfl, rfl, rfl⟩
  intro ctx text
  simp only [detectDate, runDetectors_append]
  cases runDetectors exactDateDetectors ctx (initState text) with
  | error e => rfl
  | ok st =>
    cases runDetectors possibleDateDetectors ctx st with
    | error e => rfl
    | ok st' => rfl

/-- C3: a token that structurally matches `_gregorian_month_day_format`
but whose month word fails the lexical lookup is not silently skipped:
the source compares `self.now_date.month > mm` with `mm = None` before
the `if mm:` guard, which raises `TypeError` under Python 3 and aborts
the whole pipeline — here shown on the text `"foo 12"`. -/
theorem lookup_failure_aborts_pipeline :
    detectDate ⟨⟨2024, 3, 15, 43200⟩, none⟩ ("foo 12".toList) =
      .error .typeError
  ∧ gregorianMonthDayStep ⟨⟨2024, 3, 15, 43200⟩, none⟩
      ["foo 12".toList, "foo".toList, "12".toList] = .error .typeError
  ∧ getMonthIndex ("foo".toList) = none
  ∧ findall patMwD 3 (" foo 12 ".toList) =
      [["foo 12".toList, "foo".toList, "12".toList]] :=
  ⟨rfl, rfl, rfl, rfl⟩

/-- C4: a matched date whose day/month combination is not calendrically
valid is not emitted as-is: `_date_identification_given_day` constructs
`datetime.date(2017, 2, 29)` for the text `"29th"` on reference date
2017-02-07 — the very example of its docstring — and that raises
`ValueError`, aborting detection; likewise the year-omitted numeric
detector constructs `datetime.datetime(2017, 2, 30)` for `"30/2"`. -/
theorem invalid_calendar_date_aborts_pipeline :
    detectDate ⟨⟨2017, 2, 7, 43200⟩, none⟩ ("29th".toList) =
      .error .valueError
  ∧ detectDate ⟨⟨2017, 2, 7, 43200⟩, none⟩ ("30/2".toList) =
      .error .valueError
  ∧ mkDate 2017 2 29 = .error .valueError :=
  ⟨rfl, rfl, rfl⟩

/-- C9: the `_day_within_one_week` regular expression's qualifier group
is starred, hence optional, so a bare weekday name with no preceding
qualifier word still matches: on `" monday "` (reference date 2024-03-15,
a Friday) the detector emits the date of the following Monday, and the
qualifier group of the single match is empty. -/
theorem bare_weekday_matched_without_qualifier :
    dayWithinOneWeek ⟨⟨2024, 3, 15, 43200⟩, none⟩ (" monday ".toList) [] [] =
      .ok ([{dd := 18, mm := 3, yy := 2024, type := .thisDay,
             dinfo := allDetected}], ["monday".toList])
  ∧ findall patThisWeekday 3 (" monday ".toList) =
      [["monday".toList, [], "monday".toList]] :=
  ⟨rfl, rfl⟩

/-- C5: `normalize_year` keeps a 4-digit year unchanged; a 2-digit year
resolves to the previous century when the bot message matches the birth
lexicon (`birth|bday|dob|born`), and to the current century when no bot
message is present.  The source's present/future lexicons are `None`
(`present_regex = None`, `future_regex = None`), so the present/future
branches of the claim can never fire. -/
theorem normalize_year_century_resolution (ctx : Ctx) (year y4 : Text)
    (h2 : year.length = 2) (h4 : y4.length = 4) :
    normalizeYear ctx y4 = y4
  ∧ (∀ msg, ctx.botMessage = some msg → reSearch pastRegex msg = true →
      normalizeYear ctx year = Nat.toDigits 10 (thisCentury ctx - 1) ++ year)
  ∧ (ctx.botMessage = none →
      normalizeYear ctx year = Nat.toDigits 10 (thisCentury ctx) ++ year)
  ∧ presentRegex = none ∧ futureRegex = none := by
  refine ⟨?_, ?_, ?_, rfl, rfl⟩
  · simp only [normalizeYear]
    rw [if_neg (by omega)]
  · intro msg hm hp
    simp [normalizeYear, h2, hm, hp]
  · intro hn
    simp [normalizeYear, h2, hn]

/-- Witness for C5: the spec's own examples, current year 2024. -/
theorem normalize_year_century_resolution_witness :
    normalizeYear ⟨⟨2024, 3, 15, 0⟩, some ("what is your date of birth".toList)⟩
        ("99".toList) = "1999".toList
  ∧ normalizeYear ⟨⟨2024, 3, 15, 0⟩, none⟩ ("99".toList) = "2099".toList :=
  ⟨(normalize_year_century_resolution
      ⟨⟨2024, 3, 15, 0⟩, some ("what is your date of birth".toList)⟩
      ("99".toList) ("2024".toList) rfl rfl).2.1 _ rfl rfl,
   (normalize_year_century_resolution ⟨⟨2024, 3, 15, 0⟩, none⟩
      ("99".toList) ("2024".toList) rfl rfl).2.2.1 rfl⟩

/-- C6: for every named-month, year-omitted match (month-day and
day-month forms) whose month word resolves in the lookup, the inferred
year is current-year-plus-one iff the matched month is strictly less
than the current month, or equal with the matched day strictly less
than the current day; day and month provenance is `detected`, year
provenance `inferred`. -/
theorem named_month_year_omitted_inference (ctx : Ctx) (g : List Text) (m : Nat) :
    (getMonthIndex (g.getD 1 []) = some m →
      gregorianMonthDayStep ctx g = .ok (some (
        {dd := digitsToNat (g.getD 2 []), mm := m,
         yy := if m < ctx.now.month then ctx.now.year + 1
               else if m = ctx.now.month ∧ digitsToNat (g.getD 2 []) < ctx.now.day
               then ctx.now.year + 1 else ctx.now.year,
         type := .exact, dinfo := ⟨.detected, .detected, .inferred⟩},
        g.getD 0 [])))
  ∧ (getMonthIndex (g.getD 2 []) = some m →
      gregorianDayMonthStep ctx g = .ok (some (
        {dd := digitsToNat (g.getD 1 []), mm := m,
         yy := if m < ctx.now.month then ctx.now.year + 1
               else if m = ctx.now.month ∧ digitsToNat (g.getD 1 []) < ctx.now.day
               then ctx.now.year + 1 else ctx.now.year,
         type := .exact, dinfo := ⟨.detected, .detected, .inferred⟩},
        g.getD 0 []))) := by
  constructor
  · intro h
    have e1 : (ctx.now.day > digitsToNat (g.getD 2 []) ∧ ctx.now.month = m) ↔
        (m = ctx.now.month ∧ digitsToNat (g.getD 2 []) < ctx.now.day) :=
      ⟨fun ⟨a, b⟩ => ⟨b.symm, a⟩, fun ⟨a, b⟩ => ⟨b, a.symm⟩⟩
    simp only [gregorianMonthDayStep, h, gt_iff_lt, e1]
  · intro h
    have e1 : (ctx.now.day > digitsToNat (g.getD 1 []) ∧ ctx.now.month = m) ↔
        (m = ctx.now.month ∧ digitsToNat (g.getD 1 []) < ctx.now.day) :=
      ⟨fun ⟨a, b⟩ => ⟨b.symm, a⟩, fun ⟨a, b⟩ => ⟨b, a.symm⟩⟩
    simp only [gregorianDayMonthStep, h, gt_iff_lt, e1]

/-- Witness for C6: the spec's year-rollover examples at reference date
2024-03-15 — "10 feb" infers 2025, "20 march" infers 2024. -/
theorem named_month_year_omitted_inference_witness :
    gregorianDayMonthStep ⟨⟨2024, 3, 15, 0⟩, none⟩
        ["10 feb".toList, "10".toList, "feb".toList] =
      .ok (some ({dd := 10, mm := 2, yy := 2025, type := .exact,
                  dinfo := ⟨.detected, .detected, .inferred⟩},
                 "10 feb".toList))
  ∧ gregorianDayMonthStep ⟨⟨2024, 3, 15, 0⟩, none⟩
        ["20 march".toList, "20".toList, "march".toList] =
      .ok (some ({dd := 20, mm := 3, yy := 2024, type := .exact,
                  dinfo := ⟨.detected, .detected, .inferred⟩},
                 "20 march".toList)) :=
  ⟨(named_month_year_omitted_inference ⟨⟨2024, 3, 15, 0⟩, none⟩
      ["10 feb".toList, "10".toList, "feb".toList] 2).2 rfl,
   (named_month_year_omitted_inference ⟨⟨2024, 3, 15, 0⟩, none⟩
      ["20 march".toList, "20".toList, "march".toList] 3).2 rfl⟩

/-- C7: when both weekday lookups succeed, "next <weekday>" emits the
reference instant plus `day - current_day + 7` days, and
"this <weekday>" (the qualifier is optional) emits the reference instant
plus `day - current_day` days when that offset is non-negative and plus
`day - current_day + 7` days when it is negative. -/
theorem weekday_relative_offsets (ctx : Ctx) (g : List Text) (d c : Nat)
    (hd : getDayIndex (g.getD 2 []) = some d)
    (hc : getDayIndex (strftimeA ctx.now) = some c) :
    dayInNextWeekStep ctx g =
      .ok (some ({dd := (addDays ctx.now (Int.ofNat d - Int.ofNat c + 7)).day,
                  mm := (addDays ctx.now (Int.ofNat d - Int.ofNat c + 7)).month,
                  yy := (addDays ctx.now (Int.ofNat d - Int.ofNat c + 7)).year,
                  type := .nextDay, dinfo := allDetected}, g.getD 0 []))
  ∧ dayWithinOneWeekStep ctx g =
      .ok (some ({dd := (addDays ctx.now
                    (if 0 ≤ Int.ofNat d - Int.ofNat c
                     then Int.ofNat d - Int.ofNat c
                     else Int.ofNat d - Int.ofNat c + 7)).day,
                  mm := (addDays ctx.now
                    (if 0 ≤ Int.ofNat d - Int.ofNat c
                     then Int.ofNat d - Int.ofNat c
                     else Int.ofNat d - Int.ofNat c + 7)).month,
                  yy := (addDays ctx.now
                    (if 0 ≤ Int.ofNat d - Int.ofNat c
                     then Int.ofNat d - Int.ofNat c
                     else Int.ofNat d - Int.ofNat c + 7)).year,
                  type := .thisDay, dinfo := allDetected},
                 stripText (g.getD 0 []))) := by
  constructor
  · simp only [dayInNextWeekStep, hd, hc]
  · have e1 : (if c ≤ d then Int.ofNat d - Int.ofNat c
               else Int.ofNat d - Int.ofNat c + 7) =
        (if 0 ≤ Int.ofNat d - Int.ofNat c then Int.ofNat d - Int.ofNat c
         else Int.ofNat d - Int.ofNat c + 7) := by
      by_cases hcd : c ≤ d
      · rw [if_pos hcd, if_pos (by simp only [Int.ofNat_eq_natCast]; omega)]
      · rw [if_neg hcd, if_neg (by simp only [Int.ofNat_eq_natCast]; omega)]
    simp only [dayWithinOneWeekStep, hd, hc, e1]

/-- Witness for C7: the spec's examples at reference instant 2024-03-15
(a Friday): "next monday" → 2024-03-18, and "monday" through the
this-weekday rule (Monday already passed) → 2024-03-18 as well. -/
theorem weekday_relative_offsets_witness :
    dayInNextWeekStep ⟨⟨2024, 3, 15, 43200⟩, none⟩
        ["next monday".toList, "next".toList, "monday".toList] =
      .ok (some ({dd := 18, mm := 3, yy := 2024, type := .nextDay,
                  dinfo := allDetected}, "next monday".toList))
  ∧ dayWithinOneWeekStep ⟨⟨2024, 3, 15, 43200⟩, none⟩
        ["monday".toList, [], "monday".toList] =
      .ok (some ({dd := 18, mm := 3, yy := 2024, type := .thisDay,
                  dinfo := allDetected}, "monday".toList)) :=
  ⟨(weekday_relative_offsets ⟨⟨2024, 3, 15, 43200⟩, none⟩
      ["next monday".toList, "next".toList, "monday".toList] 2 6 rfl rfl).1,
   (weekday_relative_offsets ⟨⟨2024, 3, 15, 43200⟩, none⟩
      ["monday".toList, [], "monday".toList] 2 6 rfl rfl).2⟩

/-- C8: for the numeric day/month grammar, a match with the year omitted
is emitted with the current year unless the matched day/month at the
current year is strictly before the reference instant (then current year
plus one); a present year string (2- or 4-digit) goes through
`normalize_year` instead. -/
theorem numeric_year_omitted_inference (ctx : Ctx) (g : List Text) :
    ((g.getD 3 []).isEmpty = true → ∀ rec orig,
      gregorianDayMonthYearStep ctx g = .ok (some (rec, orig)) →
      rec.yy = (if dtLt ⟨ctx.now.year, digitsToNat (g.getD 2 []),
                         digitsToNat (g.getD 1 []), 0⟩ ctx.now
                then ctx.now.year + 1 else ctx.now.year))
  ∧ ((g.getD 3 []).isEmpty = false →
      gregorianDayMonthYearStep ctx g = .ok (some (
        {dd := digitsToNat (g.getD 1 []), mm := digitsToNat (g.getD 2 []),
         yy := Int.ofNat (digitsToNat (normalizeYear ctx (g.getD 3 []))),
         type := .exact, dinfo := allDetected}, g.getD 0 []))) := by
  constructor
  · intro he rec orig h
    simp only [gregorianDayMonthYearStep] at h
    rw [if_pos he] at h
    cases hmk : mkDateTime ctx.now.year (digitsToNat (g.getD 2 []))
        (digitsToNat (g.getD 1 [])) with
    | error e => rw [hmk] at h; cases h
    | ok dt =>
      rw [hmk] at h
      have hdt : dt = ⟨ctx.now.year, digitsToNat (g.getD 2 []),
          digitsToNat (g.getD 1 []), 0⟩ := by
        simp only [mkDateTime] at hmk
        split at hmk
        · exact (Except.ok.inj hmk).symm
        · cases hmk
      simp only [Except.ok.injEq, Option.some.injEq, Prod.mk.injEq] at h
      rw [← h.1, hdt]
  · intro he
    simp only [gregorianDayMonthYearStep]
    rw [if_neg (by rw [he]; simp)]

/-- Witness for C8: "10/2" (year omitted) at reference instant
2024-03-15 noon rolls to 2025 because 2024-02-10 is in the past. -/
theorem numeric_year_omitted_inference_witness :
    ({dd := 10, mm := 2, yy := 2025, type := .exact,
      dinfo := allDetected} : DateDict).yy =
      (if dtLt ⟨2024, 2, 10, 0⟩ ⟨2024, 3, 15, 43200⟩
       then (2024 : Int) + 1 else 2024) :=
  (numeric_year_omitted_inference ⟨⟨2024, 3, 15, 43200⟩, none⟩
      ["10/2".toList, "10".toList, "2".toList, []]).1 rfl
    {dd := 10, mm := 2, yy := 2025, type := .exact, dinfo := allDetected}
    ("10/2".toList) rfl

/-- C10: `normalize_year` returns its input unchanged whenever its
length is not exactly 2, regardless of any bot-message hint. -/
theorem normalize_year_non_two_digit_unchanged (ctx : Ctx) (year : Text)
    (h : ¬ year.length = 2) : normalizeYear ctx year = year := by
  simp [normalizeYear, h]

/-- Witness for C10: 1-, 3- and 5-digit year tokens pass through
unmodified even with a birth hint present. -/
theorem normalize_year_non_two_digit_unchanged_witness :
    normalizeYear ⟨⟨2024, 3, 15, 0⟩, some ("birth".toList)⟩ ("9".toList) =
      "9".toList
  ∧ normalizeYear ⟨⟨2024, 3, 15, 0⟩, some ("birth".toList)⟩ ("123".toList) =
      "123".toList
  ∧ normalizeYear ⟨⟨2024, 3, 15, 0⟩, some ("birth".toList)⟩ ("20245".toList) =
      "20245".toList :=
  ⟨normalize_year_non_two_digit_unchanged _ _ (by decide),
   normalize_year_non_two_digit_unchanged _ _ (by decide),
   normalize_year_non_two_digit_unchanged _ _ (by decide)⟩
